import Mathlib

/-!
Shallow embedding of `custom_components/ring_keypad/model.py`: the static
lookup tables (`ALARM_STATE`, `CHIME`, `ALARM`) and the three command
builders (`alarm_state_command`, `alarm_command`, `chime_command`), together
with the duration formatter `_format_delay`.
-/

namespace RingKeypad

/-- The Home Assistant `AlarmControlPanelState` enumeration (external
framework type, the input domain of `alarm_state_command`). Its members and
string values follow the Home Assistant alarm control panel component. -/
inductive AlarmControlPanelState where
  | disarmed
  | armed_home
  | armed_away
  | armed_night
  | armed_vacation
  | armed_custom_bypass
  | pending
  | arming
  | disarming
  | triggered
deriving DecidableEq, Repr

/-- The string value of each `AlarmControlPanelState` member (it is a Python
string enum, so interpolation into an f-string yields this value). -/
def AlarmControlPanelState.value : AlarmControlPanelState → String
  | .disarmed => "disarmed"
  | .armed_home => "armed_home"
  | .armed_away => "armed_away"
  | .armed_night => "armed_night"
  | .armed_vacation => "armed_vacation"
  | .armed_custom_bypass => "armed_custom_bypass"
  | .pending => "pending"
  | .arming => "arming"
  | .disarming => "disarming"
  | .triggered => "triggered"

/-- A Python value that is either a string or an integer (the payload type
`str | int` used for the `property_key` and `value` fields). -/
inductive StrOrInt where
  | str (s : String)
  | int (i : Int)
deriving DecidableEq, Repr

def EVENT_COMMAND_CLASS : String := "111"

def COMMAND_CLASS : String := "135"

def ENDPOINT : Int := 0

def MODE_PROPERTY_KEY : Int := 1

def DELAY_PROPERTY_KEY : Int := 7

def NOTIFICATION_SOUND_PROPERTY_KEY : Int := 9

def MAX_VALUE : Int := 100

/-- Modelled from the spec: `DEFAULT_DELAY` is imported from `const.py`,
which is not among the sources; the spec fixes only that it is "a fixed
default duration" in seconds, used when the delay argument is absent. We
pick a representative constant; no claim depends on its numeric value. -/
def DEFAULT_DELAY : Int := 60

/-- The `Message` integer enumeration (property key 1 message codes). -/
inductive Message where
  | INVALID_CODE
  | NEED_BYPASS
  | DISARMED
  | ARMED_AWAY
  | ARMED_HOME
  | GENERIC_ALARM
  | BURGLAR_ALARM
  | SMOKE_ALARM
  | CO2_ALARM
  | MEDICAL_ALARM
deriving DecidableEq, Repr

/-- Integer value of each `Message` member, as in the Python `IntEnum`. -/
def Message.code : Message → Int
  | .INVALID_CODE => 9
  | .NEED_BYPASS => 16
  | .DISARMED => 2
  | .ARMED_AWAY => 11
  | .ARMED_HOME => 10
  | .GENERIC_ALARM => 12
  | .BURGLAR_ALARM => 13
  | .SMOKE_ALARM => 14
  | .CO2_ALARM => 15
  | .MEDICAL_ALARM => 19

/-- The `Delay` integer enumeration (property key 7 delay codes). -/
inductive Delay where
  | ENTRY_DELAY
  | EXIT_DELAY
deriving DecidableEq, Repr

/-- Integer value of each `Delay` member, as in the Python `IntEnum`. -/
def Delay.code : Delay → Int
  | .ENTRY_DELAY => 17
  | .EXIT_DELAY => 18

def PROPERTY_KEY_TIMEOUT : String := "timeout"

/-- The `NotificationSound` integer enumeration. -/
inductive NotificationSound where
  | DOUBLE_BEEP
  | GUITAR_RIFF
  | WIND_CHIME
  | BING_BONG
  | DOORBELL
deriving DecidableEq, Repr

/-- Integer value of each `NotificationSound` member. -/
def NotificationSound.code : NotificationSound → Int
  | .DOUBLE_BEEP => 96
  | .GUITAR_RIFF => 97
  | .WIND_CHIME => 98
  | .BING_BONG => 99
  | .DOORBELL => 100

/-- A value stored in the `ALARM_STATE` table: a `Message` or a `Delay`. -/
abbrev StateCode := Message ⊕ Delay

/-- Integer value of an `ALARM_STATE` table entry (Python `int(message)`). -/
def StateCode.code : StateCode → Int
  | Sum.inl m => m.code
  | Sum.inr d => d.code

/-- A value stored in the `CHIME` table: a `Message` or a sound. -/
abbrev ChimeCode := Message ⊕ NotificationSound

/-- Integer value of a `CHIME` table entry (Python `int(message)`). -/
def ChimeCode.code : ChimeCode → Int
  | Sum.inl m => m.code
  | Sum.inr s => s.code

/-- The `ALARM_STATE` dictionary as a lookup function: `ALARM_STATE.get`
returns the mapped value or `None` for keys outside the dictionary. -/
def ALARM_STATE : AlarmControlPanelState → Option StateCode
  | .armed_away => some (Sum.inl Message.ARMED_AWAY)
  | .armed_home => some (Sum.inl Message.ARMED_HOME)
  | .arming => some (Sum.inr Delay.EXIT_DELAY)
  | .disarmed => some (Sum.inl Message.DISARMED)
  | .pending => some (Sum.inr Delay.ENTRY_DELAY)
  | .triggered => some (Sum.inl Message.BURGLAR_ALARM)
  | _ => none

/-- The `CHIME` dictionary as a lookup function. -/
def CHIME : String → Option ChimeCode
  | "invalid_code" => some (Sum.inl Message.INVALID_CODE)
  | "need_bypass" => some (Sum.inl Message.NEED_BYPASS)
  | "double_beep" => some (Sum.inr NotificationSound.DOUBLE_BEEP)
  | "guitar_riff" => some (Sum.inr NotificationSound.GUITAR_RIFF)
  | "wind_chime" => some (Sum.inr NotificationSound.WIND_CHIME)
  | "bing_bong" => some (Sum.inr NotificationSound.BING_BONG)
  | "doorbell" => some (Sum.inr NotificationSound.DOORBELL)
  | _ => none

/-- The `ALARM` dictionary as a lookup function. -/
def ALARM : String → Option Message
  | "generic" => some Message.GENERIC_ALARM
  | "burglar" => some Message.BURGLAR_ALARM
  | "smoke" => some Message.SMOKE_ALARM
  | "co2" => some Message.CO2_ALARM
  | "medical" => some Message.MEDICAL_ALARM
  | _ => none

/-- The command dictionary produced by the three builders. Its keys are
fixed, so it is embedded as a record with one field per key. -/
structure Command where
  command_class : String
  endpoint : Int
  property : Int
  property_key : StrOrInt
  value : StrOrInt
deriving DecidableEq, Repr

/-- `_format_delay`: Python floor division and modulus on the total seconds
(`Int.fdiv` and `Int.emod` agree with Python `//` and `%` for the positive
divisor 60), rendered with no zero-padding. A `None` argument counts as 0. -/
def _format_delay (delay : Option Int) : String :=
  let total_seconds : Int := match delay with | some d => d | none => 0
  let minutes := Int.fdiv total_seconds 60
  let seconds := Int.emod total_seconds 60
  toString minutes ++ "m" ++ toString seconds ++ "s"

/-- `alarm_state_command`: look the state up in `ALARM_STATE`; a falsy
result (absent key, or a value whose integer code is 0, per Python
truthiness of `if not message`) raises `ValueError`. A `Delay` value takes
the timeout branch; otherwise the triggered state takes the notification
sound key and every other state the mode key. -/
def alarm_state_command (state : AlarmControlPanelState) (delay : Option Int) :
    Except String Command :=
  match ALARM_STATE state with
  | none => Except.error ("Invalid alarm state command: " ++ state.value)
  | some message =>
    if StateCode.code message = 0 then
      Except.error ("Invalid alarm state command: " ++ state.value)
    else
      match message with
      | Sum.inr _ =>
        let v : Int := match delay with | none => DEFAULT_DELAY | some d => d
        Except.ok
          { command_class := COMMAND_CLASS
            endpoint := ENDPOINT
            property := StateCode.code message
            property_key := StrOrInt.str PROPERTY_KEY_TIMEOUT
            value := StrOrInt.str (_format_delay (some v)) }
      | Sum.inl _ =>
        if state = AlarmControlPanelState.triggered then
          Except.ok
            { command_class := COMMAND_CLASS
              endpoint := ENDPOINT
              property := StateCode.code message
              property_key := StrOrInt.int NOTIFICATION_SOUND_PROPERTY_KEY
              value := StrOrInt.int MAX_VALUE }
        else
          Except.ok
            { command_class := COMMAND_CLASS
              endpoint := ENDPOINT
              property := StateCode.code message
              property_key := StrOrInt.int MODE_PROPERTY_KEY
              value := StrOrInt.int MAX_VALUE }

/-- `alarm_command`: look the alarm type up in `ALARM`; a falsy result
raises `ValueError` whose message text reads "Invalid chime command"
(exactly as in the source). -/
def alarm_command (alarm : String) : Except String Command :=
  match ALARM alarm with
  | none => Except.error ("Invalid chime command: " ++ alarm)
  | some property =>
    if Message.code property = 0 then
      Except.error ("Invalid chime command: " ++ alarm)
    else
      Except.ok
        { command_class := COMMAND_CLASS
          endpoint := ENDPOINT
          property := Message.code property
          property_key := StrOrInt.int NOTIFICATION_SOUND_PROPERTY_KEY
          value := StrOrInt.int MAX_VALUE }

/-- `chime_command`: look the chime up in `CHIME`; a falsy result raises
`ValueError`. A `NotificationSound` value selects the notification sound
property key, a `Message` value the mode property key. -/
def chime_command (chime : String) : Except String Command :=
  match CHIME chime with
  | none => Except.error ("Invalid chime command: " ++ chime)
  | some message =>
    if ChimeCode.code message = 0 then
      Except.error ("Invalid chime command: " ++ chime)
    else
      let property_key : StrOrInt :=
        match message with
        | Sum.inr _ => StrOrInt.int NOTIFICATION_SOUND_PROPERTY_KEY
        | Sum.inl _ => StrOrInt.int MODE_PROPERTY_KEY
      Except.ok
        { command_class := COMMAND_CLASS
          endpoint := ENDPOINT
          property := ChimeCode.code message
          property_key := property_key
          value := StrOrInt.int MAX_VALUE }

/-!
Claim theorems. Record fields of a successful result are observed through
`Except.toOption` followed by `Option.map`, so that `= some _` asserts both
that the call succeeds and what the field is.
-/

/-- Claim C1: for every state present in `ALARM_STATE`, `alarm_state_command`
succeeds and the `property` field equals the table code of that state; when
the table value is a message code and the state is not the triggered state,
the `property_key` field is the mode key and the `value` field is the
maximum level constant. -/
theorem alarm_state_command_table_fields (s : AlarmControlPanelState)
    (v : StateCode) (d : Option Int) (h : ALARM_STATE s = some v) :
    Option.map Command.property (alarm_state_command s d).toOption =
      some (StateCode.code v) ∧
    (∀ m : Message, v = Sum.inl m → s ≠ AlarmControlPanelState.triggered →
      Option.map Command.property_key (alarm_state_command s d).toOption =
        some (StrOrInt.int MODE_PROPERTY_KEY) ∧
      Option.map Command.value (alarm_state_command s d).toOption =
        some (StrOrInt.int MAX_VALUE)) := by
  cases s with
  | disarmed =>
    injection h with h
    subst h
    exact ⟨rfl, fun m hm hne => by injection hm with hm; subst hm; exact ⟨rfl, rfl⟩⟩
  | armed_home =>
    injection h with h
    subst h
    exact ⟨rfl, fun m hm hne => by injection hm with hm; subst hm; exact ⟨rfl, rfl⟩⟩
  | armed_away =>
    injection h with h
    subst h
    exact ⟨rfl, fun m hm hne => by injection hm with hm; subst hm; exact ⟨rfl, rfl⟩⟩
  | arming =>
    injection h with h
    subst h
    exact ⟨rfl, fun m hm hne => nomatch hm⟩
  | pending =>
    injection h with h
    subst h
    exact ⟨rfl, fun m hm hne => nomatch hm⟩
  | triggered =>
    injection h with h
    subst h
    exact ⟨rfl, fun m hm hne => absurd rfl hne⟩
  | armed_night => exact Option.noConfusion h
  | armed_vacation => exact Option.noConfusion h
  | armed_custom_bypass => exact Option.noConfusion h
  | disarming => exact Option.noConfusion h

/-- Claim C1 witness at state `armed_away` with no delay. -/
theorem alarm_state_command_table_fields_witness :
    Option.map Command.property
        (alarm_state_command AlarmControlPanelState.armed_away none).toOption =
      some 11 ∧
    Option.map Command.property_key
        (alarm_state_command AlarmControlPanelState.armed_away none).toOption =
      some (StrOrInt.int MODE_PROPERTY_KEY) ∧
    Option.map Command.value
        (alarm_state_command AlarmControlPanelState.armed_away none).toOption =
      some (StrOrInt.int MAX_VALUE) := by
  obtain ⟨h1, h2⟩ :=
    alarm_state_command_table_fields AlarmControlPanelState.armed_away
      (Sum.inl Message.ARMED_AWAY) none rfl
  obtain ⟨h3, h4⟩ := h2 Message.ARMED_AWAY rfl (by decide)
  exact ⟨h1, h3, h4⟩

/-- Claim C2: for every state whose `ALARM_STATE` value is a delay code,
`alarm_state_command` succeeds with `property_key` equal to the timeout tag
and `value` equal to the formatted duration of the given delay when one is
supplied (zero included), and of `DEFAULT_DELAY` when the delay is absent. -/
theorem alarm_state_command_delay_fields (s : AlarmControlPanelState)
    (dc : Delay) (h : ALARM_STATE s = some (Sum.inr dc)) :
    (∀ dv : Int,
      Option.map Command.property_key (alarm_state_command s (some dv)).toOption =
        some (StrOrInt.str PROPERTY_KEY_TIMEOUT) ∧
      Option.map Command.value (alarm_state_command s (some dv)).toOption =
        some (StrOrInt.str (_format_delay (some dv)))) ∧
    (Option.map Command.property_key (alarm_state_command s none).toOption =
        some (StrOrInt.str PROPERTY_KEY_TIMEOUT) ∧
     Option.map Command.value (alarm_state_command s none).toOption =
        some (StrOrInt.str (_format_delay (some DEFAULT_DELAY)))) := by
  cases s with
  | arming => exact ⟨fun dv => ⟨rfl, rfl⟩, rfl, rfl⟩
  | pending => exact ⟨fun dv => ⟨rfl, rfl⟩, rfl, rfl⟩
  | disarmed => exact nomatch h
  | armed_home => exact nomatch h
  | armed_away => exact nomatch h
  | triggered => exact nomatch h
  | armed_night => exact Option.noConfusion h
  | armed_vacation => exact Option.noConfusion h
  | armed_custom_bypass => exact Option.noConfusion h
  | disarming => exact Option.noConfusion h

/-- Claim C2 witness at state `arming`, with delay 0 and with no delay. -/
theorem alarm_state_command_delay_fields_witness :
    Option.map Command.property_key
        (alarm_state_command AlarmControlPanelState.arming (some 0)).toOption =
      some (StrOrInt.str PROPERTY_KEY_TIMEOUT) ∧
    Option.map Command.value
        (alarm_state_command AlarmControlPanelState.arming (some 0)).toOption =
      some (StrOrInt.str (_format_delay (some 0))) ∧
    Option.map Command.value
        (alarm_state_command AlarmControlPanelState.arming none).toOption =
      some (StrOrInt.str (_format_delay (some DEFAULT_DELAY))) := by
  obtain ⟨h1, h2⟩ :=
    alarm_state_command_delay_fields AlarmControlPanelState.arming
      Delay.EXIT_DELAY rfl
  obtain ⟨h3, h4⟩ := h1 0
  exact ⟨h3, h4, h2.2⟩

/-- Claim C3: for every natural number of total seconds S, `_format_delay`
renders the minutes S / 60 followed by the seconds S % 60 with no
zero-padding; in particular 0, 65 and 3600 render as stated. -/
theorem format_delay_div_mod :
    (∀ S : Nat, _format_delay (some (S : Int)) =
        toString (S / 60) ++ "m" ++ toString (S % 60) ++ "s") ∧
    _format_delay (some 0) = "0m0s" ∧
    _format_delay (some 65) = "1m5s" ∧
    _format_delay (some 3600) = "60m0s" := by
  refine ⟨fun S => ?_, rfl, rfl, rfl⟩
  cases S with
  | zero => rfl
  | succ n => rfl

/-- Claim C4: each of the three builders yields an error exactly when its
input is absent from its table, and no table value type carries the integer
code 0, so the truthiness test of the source rejects exactly the absent
keys. -/
theorem builders_error_iff_absent :
    (∀ (s : AlarmControlPanelState) (d : Option Int),
      (∃ e, alarm_state_command s d = Except.error e) ↔ ALARM_STATE s = none) ∧
    (∀ a : String, (∃ e, alarm_command a = Except.error e) ↔ ALARM a = none) ∧
    (∀ ch : String, (∃ e, chime_command ch = Except.error e) ↔ CHIME ch = none) ∧
    (∀ v : StateCode, (StateCode.code v = 0) = False) ∧
    (∀ v : Message, (Message.code v = 0) = False) ∧
    (∀ v : ChimeCode, (ChimeCode.code v = 0) = False) := by
  refine ⟨?_, ?_, ?_, ?_, ?_, ?_⟩
  · intro s d
    cases s <;>
      simp [alarm_state_command, ALARM_STATE, StateCode.code, Message.code,
        Delay.code]
  · intro a
    cases h : ALARM a with
    | none => simp [alarm_command, h]
    | some v => cases v <;> simp [alarm_command, h, Message.code]
  · intro ch
    cases h : CHIME ch with
    | none => simp [chime_command, h]
    | some v =>
      rcases v with m | snd
      · cases m <;> simp [chime_command, h, ChimeCode.code, Message.code]
      · cases snd <;>
          simp [chime_command, h, ChimeCode.code, NotificationSound.code]
  · intro v
    rcases v with m | dc
    · cases m <;> simp [StateCode.code, Message.code]
    · cases dc <;> simp [StateCode.code, Delay.code]
  · intro v
    cases v <;> simp [Message.code]
  · intro v
    rcases v with m | snd
    · cases m <;> simp [ChimeCode.code, Message.code]
    · cases snd <;> simp [ChimeCode.code, NotificationSound.code]

/-- Claim C5: for the triggered state (whose table value is a message code)
`alarm_state_command` succeeds with the notification sound property key and
the maximum level value; every other state whose table value is a message
code gets the mode property key with the same value. -/
theorem alarm_state_command_triggered_vs_mode (d : Option Int) :
    (Option.map Command.property_key
        (alarm_state_command AlarmControlPanelState.triggered d).toOption =
      some (StrOrInt.int NOTIFICATION_SOUND_PROPERTY_KEY) ∧
     Option.map Command.value
        (alarm_state_command AlarmControlPanelState.triggered d).toOption =
      some (StrOrInt.int MAX_VALUE)) ∧
    (∀ (s : AlarmControlPanelState) (m : Message),
      s ≠ AlarmControlPanelState.triggered → ALARM_STATE s = some (Sum.inl m) →
      Option.map Command.property_key (alarm_state_command s d).toOption =
        some (StrOrInt.int MODE_PROPERTY_KEY) ∧
      Option.map Command.value (alarm_state_command s d).toOption =
        some (StrOrInt.int MAX_VALUE)) := by
  refine ⟨⟨rfl, rfl⟩, ?_⟩
  intro s m hne h
  cases s with
  | disarmed => exact ⟨rfl, rfl⟩
  | armed_home => exact ⟨rfl, rfl⟩
  | armed_away => exact ⟨rfl, rfl⟩
  | triggered => exact absurd rfl hne
  | arming => exact nomatch h
  | pending => exact nomatch h
  | armed_night => exact Option.noConfusion h
  | armed_vacation => exact Option.noConfusion h
  | armed_custom_bypass => exact Option.noConfusion h
  | disarming => exact Option.noConfusion h

/-- Claim C5 witness: the non-triggered mode path at `armed_home`. -/
theorem alarm_state_command_triggered_vs_mode_witness :
    Option.map Command.property_key
        (alarm_state_command AlarmControlPanelState.armed_home none).toOption =
      some (StrOrInt.int MODE_PROPERTY_KEY) ∧
    Option.map Command.value
        (alarm_state_command AlarmControlPanelState.armed_home none).toOption =
      some (StrOrInt.int MAX_VALUE) :=
  (alarm_state_command_triggered_vs_mode none).2
    AlarmControlPanelState.armed_home Message.ARMED_HOME (by decide) rfl

/-- Claim C6: for every name in the `CHIME` table, `chime_command` succeeds
with value equal to the maximum level constant; the property key is the
notification sound key for a sound-code entry and the mode key for a
message-code entry; in particular for "doorbell" and "invalid_code". -/
theorem chime_command_table_fields :
    (∀ (name : String) (v : ChimeCode), CHIME name = some v →
      Option.map Command.value (chime_command name).toOption =
        some (StrOrInt.int MAX_VALUE) ∧
      Option.map Command.property_key (chime_command name).toOption =
        some (match v with
              | Sum.inr _ => StrOrInt.int NOTIFICATION_SOUND_PROPERTY_KEY
              | Sum.inl _ => StrOrInt.int MODE_PROPERTY_KEY)) ∧
    Option.map Command.property_key (chime_command ("doorbell")).toOption =
      some (StrOrInt.int NOTIFICATION_SOUND_PROPERTY_KEY) ∧
    Option.map Command.property_key (chime_command ("invalid_code")).toOption =
      some (StrOrInt.int MODE_PROPERTY_KEY) := by
  refine ⟨?_, rfl, rfl⟩
  intro name v h
  rcases v with m | snd
  · cases m <;> (unfold chime_command; rw [h]; exact ⟨rfl, rfl⟩)
  · cases snd <;> (unfold chime_command; rw [h]; exact ⟨rfl, rfl⟩)

/-- Claim C6 witness: the message-code path at "need_bypass". -/
theorem chime_command_table_fields_witness :
    Option.map Command.value (chime_command ("need_bypass")).toOption =
      some (StrOrInt.int MAX_VALUE) ∧
    Option.map Command.property_key (chime_command ("need_bypass")).toOption =
      some (StrOrInt.int MODE_PROPERTY_KEY) :=
  chime_command_table_fields.1 ("need_bypass") (Sum.inl Message.NEED_BYPASS) rfl

/-- Claim C7 (code bug evidence): at the absent alarm type "unknown",
`alarm_command` raises an error whose message reads "Invalid chime command"
(a copy-paste of the `chime_command` message) instead of naming an
unrecognized alarm type; at the present name "medical" it returns the record
the claim describes. -/
theorem alarm_command_error_message_mismatch :
    alarm_command ("unknown") =
      Except.error ("Invalid chime command: unknown") ∧
    alarm_command ("medical") =
      Except.ok
        { command_class := COMMAND_CLASS
          endpoint := ENDPOINT
          property := Message.code Message.MEDICAL_ALARM
          property_key := StrOrInt.int NOTIFICATION_SOUND_PROPERTY_KEY
          value := StrOrInt.int MAX_VALUE } :=
  ⟨rfl, rfl⟩

/-- Claim C8: every successful result of the three builders carries the
fixed command class string and the fixed primary endpoint, stated without a
success hypothesis by comparing with the constant map over the same
computation. -/
theorem builders_fixed_class_and_endpoint :
    (∀ (s : AlarmControlPanelState) (d : Option Int),
      Option.map Command.command_class (alarm_state_command s d).toOption =
        Option.map (fun _ => COMMAND_CLASS) (alarm_state_command s d).toOption ∧
      Option.map Command.endpoint (alarm_state_command s d).toOption =
        Option.map (fun _ => ENDPOINT) (alarm_state_command s d).toOption) ∧
    (∀ a : String,
      Option.map Command.command_class (alarm_command a).toOption =
        Option.map (fun _ => COMMAND_CLASS) (alarm_command a).toOption ∧
      Option.map Command.endpoint (alarm_command a).toOption =
        Option.map (fun _ => ENDPOINT) (alarm_command a).toOption) ∧
    (∀ ch : String,
      Option.map Command.command_class (chime_command ch).toOption =
        Option.map (fun _ => COMMAND_CLASS) (chime_command ch).toOption ∧
      Option.map Command.endpoint (chime_command ch).toOption =
        Option.map (fun _ => ENDPOINT) (chime_command ch).toOption) := by
  refine ⟨?_, ?_, ?_⟩
  · intro s d
    cases s <;> exact ⟨rfl, rfl⟩
  · intro a
    cases h : ALARM a with
    | none =>
      unfold alarm_command
      rw [h]
      exact ⟨rfl, rfl⟩
    | some v =>
      cases v <;> (unfold alarm_command; rw [h]; exact ⟨rfl, rfl⟩)
  · intro ch
    cases h : CHIME ch with
    | none =>
      unfold chime_command
      rw [h]
      exact ⟨rfl, rfl⟩
    | some v =>
      rcases v with m | snd
      · cases m <;> (unfold chime_command; rw [h]; exact ⟨rfl, rfl⟩)
      · cases snd <;> (unfold chime_command; rw [h]; exact ⟨rfl, rfl⟩)

/-- Claim C9: the three builders are pure functions of their arguments, so a
repeated call with identical arguments yields a structurally identical
result (record or error alike). -/
theorem builders_deterministic :
    (∀ (s : AlarmControlPanelState) (d : Option Int),
      alarm_state_command s d = alarm_state_command s d) ∧
    (∀ a : String, alarm_command a = alarm_command a) ∧
    (∀ ch : String, chime_command ch = chime_command ch) :=
  ⟨fun _ _ => rfl, fun _ => rfl, fun _ => rfl⟩

/-- Claim C10: for every state whose `ALARM_STATE` value is a message code,
the result of `alarm_state_command` does not depend on the delay argument. -/
theorem alarm_state_command_delay_independent (s : AlarmControlPanelState)
    (m : Message) (h : ALARM_STATE s = some (Sum.inl m))
    (d1 d2 : Option Int) :
    alarm_state_command s d1 = alarm_state_command s d2 := by
  cases s with
  | disarmed => rfl
  | armed_home => rfl
  | armed_away => rfl
  | triggered => rfl
  | arming => exact nomatch h
  | pending => exact nomatch h
  | armed_night => exact Option.noConfusion h
  | armed_vacation => exact Option.noConfusion h
  | armed_custom_bypass => exact Option.noConfusion h
  | disarming => exact Option.noConfusion h

/-- Claim C10 witness at the disarmed state, with an absent delay against a
concrete delay. -/
theorem alarm_state_command_delay_independent_witness :
    alarm_state_command AlarmControlPanelState.disarmed none =
      alarm_state_command AlarmControlPanelState.disarmed (some 7200) :=
  alarm_state_command_delay_independent AlarmControlPanelState.disarmed
    Message.DISARMED rfl none (some 7200)

end RingKeypad
